import Mathlib

/-!
Shallow embedding of `homeassistant/config_entries.py`: the config-entry
lifecycle manager (`ConfigEntries`), the interactive flow orchestrator
(`FlowManager`) and the `ConfigFlowHandler` result constructors.

Python dictionaries are embedded as insertion-ordered association lists
over `String` keys; Python values as the inductive `PyVal`; exceptions as
`Except PyError`.  External collaborators (plugin components, the handler
registered by loading a component's code, schema callables, the
requirement resolver) are packaged in an `Env` record; all mutable state
(the `HANDLERS` registry, `ConfigEntries._entries`, `FlowManager._progress`,
`hass.config.components`, the scheduled-save and job-queue effects, the log
and the uuid source) in a `ConfigState` record threaded through every
operation.
-/

set_option autoImplicit false

namespace HA

/-- Python values as they occur in this module: strings, ints, booleans,
`None`, `voluptuous` schema objects (represented by an index interpreted by
`Env.schemas`, since a schema is an opaque callable), and string-keyed
dictionaries (insertion ordered). -/
inductive PyVal where
  | str : String → PyVal
  | int : Int → PyVal
  | bool : Bool → PyVal
  | none : PyVal
  | schemaRef : Nat → PyVal
  | dict : List (String × PyVal) → PyVal

/-- Python truthiness of a `PyVal` (`if result:` etc.). -/
def truthy : PyVal → Bool
  | .str s => s ≠ ""
  | .int n => n ≠ 0
  | .bool b => b
  | .none => false
  | .schemaRef _ => true
  | .dict l => !l.isEmpty

/-- `isinstance(v, bool)`. -/
def PyVal.isBool : PyVal → Bool
  | .bool _ => true
  | _ => false

/-- `str(v)`, used only to format error messages; objects render as an
opaque placeholder. -/
def pyStr : PyVal → String
  | .str s => s
  | .int n => toString n
  | .bool b => if b then "True" else "False"
  | .none => "None"
  | .schemaRef _ => "<Schema>"
  | .dict _ => "<dict>"

/-- A Python dict with string keys, in insertion order. -/
abbrev PyDict := List (String × PyVal)

/-- First value bound to key `k` (`d[k]`/`d.get(k)` succeeding cases). -/
def dictGet {α : Type} (l : List (String × α)) (k : String) : Option α :=
  match l with
  | [] => Option.none
  | (k', v) :: rest => if k' == k then some v else dictGet rest k

/-- Remove the binding of key `k` (the removal effect of `d.pop(k)`; a
Python dict holds at most one binding per key, so removing every matching
pair of the list model is the same removal). -/
def dictErase {α : Type} (l : List (String × α)) (k : String) : List (String × α) :=
  match l with
  | [] => []
  | (k', v) :: rest => if k' == k then dictErase rest k else (k', v) :: dictErase rest k

/-- Replace the value bound to key `k` if present (in-place mutation of an
object already stored in a dict). -/
def dictUpdate {α : Type} (l : List (String × α)) (k : String) (v : α) : List (String × α) :=
  match l with
  | [] => []
  | (k', v') :: rest =>
      if k' == k then (k', v) :: rest else (k', v') :: dictUpdate rest k v

/-- The exceptions this module can raise or propagate. -/
inductive PyError where
  /-- `UnknownEntry` (config_entries.py line 140). -/
  | UnknownEntry : PyError
  /-- `UnknownHandler` (config_entries.py line 144); defined by the module
  but never raised by it. -/
  | UnknownHandler : PyError
  /-- `UnknownFlow` (line 148). -/
  | UnknownFlow : PyError
  /-- `UnknownStep` (line 152), carrying the unsupported step id. -/
  | UnknownStep : String → PyError
  /-- Failure of the attribute lookup `self.hass.helpers.<attr>` on the
  external helpers loader (an import error in the real runtime). -/
  | HelpersLoaderError : String → PyError
  /-- `vol.Invalid`: a value failed a declared schema. -/
  | Invalid : String → PyError
  /-- `ValueError`. -/
  | ValueError : String → PyError
  /-- `KeyError` on a dict access. -/
  | KeyError : String → PyError
  /-- `TypeError` (unpacking `None`, calling a non-callable). -/
  | TypeError : String → PyError
deriving DecidableEq, Repr

/-- Outcome of calling into untrusted plugin code: a returned value, or a
raised exception. -/
inductive Outcome (α : Type) where
  | returns : α → Outcome α
  | raises : Outcome α

-- Module-level constants (config_entries.py lines 34-47).
def SOURCE_USER : String := "user"
def SOURCE_DISCOVERY : String := "discovery"
def RESULT_TYPE_FORM : String := "form"
def RESULT_TYPE_CREATE_ENTRY : String := "create_entry"
def RESULT_TYPE_ABORT : String := "abort"
def ENTRY_STATE_LOADED : String := "loaded"
def ENTRY_STATE_SETUP_ERROR : String := "setup_error"
def ENTRY_STATE_NOT_LOADED : String := "not_loaded"
def SAVE_DELAY : Nat := 1

/-- `ConfigEntry` (lines 50-133): one persisted configuration instance. -/
structure ConfigEntry where
  entry_id : String
  version : Nat
  domain : String
  title : PyVal
  data : PyVal
  source : String
  state : String

/-- A plugin component as seen through `hass.components`: the
`async_setup_entry` callback and the structurally-detected optional
`async_unload_entry` callback (spec §6 plugin contract). -/
structure Component where
  async_setup_entry : ConfigEntry → Outcome PyVal
  async_unload_entry : Option (ConfigEntry → Outcome PyVal)

/-- A flow-handler class: the dev-declared `VERSION`, the `ENTRY_SCHEMA`
used by `async_add_entry`, and the `async_step_<id>` methods, looked up by
step id (`hasattr`/`getattr` on the instance). -/
structure Handler where
  VERSION : Nat
  ENTRY_SCHEMA : PyVal → Except String PyVal
  steps : String → Option (Option PyVal → PyDict)

/-- A flow in progress: a handler instance with the fields the manager
binds onto it (`flow.flow_id/domain/source`, lines 312-315) and the
mutable `cur_step` pair set by `_async_handle_step`. -/
structure Flow where
  flow_id : String
  domain : String
  source : String
  handler : Handler
  cur_step : Option (PyVal × PyVal)

/-- External collaborators (spec §6). -/
structure Env where
  /-- `getattr(hass.components, domain)`: the domain's component module. -/
  components : String → Component
  /-- The handler factory that loading `domain`'s code registers into
  `HANDLERS` as a side effect (`None`: loading registers nothing). -/
  loads : String → Option Handler
  /-- Interpretation of schema objects (`data_schema(user_input)`):
  validate/coerce, or raise `vol.Invalid` with a message. -/
  schemas : Nat → PyVal → Except String PyVal
  /-- `async_process_deps_reqs`: the external requirement resolver;
  failures propagate. -/
  async_process_deps_reqs : String → Except PyError Unit

/-- All mutable state touched by the module. -/
structure ConfigState where
  /-- The `HANDLERS` registry (line 28). -/
  handlers : String → Option Handler
  /-- `ConfigEntries._entries`. -/
  entries : List ConfigEntry
  /-- `FlowManager._progress`: flow_id → flow, insertion ordered. -/
  progress : List (String × Flow)
  /-- `hass.config.components`: domains whose component is set up. -/
  components_setup : List String
  /-- Number of `_async_schedule_save` calls (the observable effect of the
  debounced-save scheduling; the timer itself is external). -/
  sched_saves : Nat
  /-- Domains handed to `hass.async_add_job(async_setup_component, ...)`. -/
  jobs : List String
  /-- `_LOGGER` output. -/
  logs : List String
  /-- Source of fresh `uuid.uuid4().hex` identifiers. -/
  fresh : Nat

/-- Fresh opaque identifier number `n` (`uuid.uuid4().hex` abstracted as a
counter of distinct ids). -/
def freshId (n : Nat) : String := "uuid-" ++ toString n

/-- `ConfigEntry.async_setup` (lines 80-100): run the component's
`async_setup_entry` inside `try/except` — a raised exception is logged and
replaced by `False`, a non-boolean return is logged — then set `state` to
`loaded` if the result is truthy and `setup_error` otherwise.  The
embedding is a total function: no plugin behavior propagates an
exception. -/
def ConfigEntry.async_setup (entry : ConfigEntry) (component : Component) :
    ConfigEntry × List String :=
  let rl : PyVal × List String :=
    match component.async_setup_entry entry with
    | .returns v =>
        (v, if v.isBool then []
            else [entry.domain ++ ".async_config_entry did not return boolean"])
    | .raises =>
        (PyVal.bool false,
         ["Error setting up entry " ++ pyStr entry.title ++ " for " ++ entry.domain])
  ({ entry with state :=
      (if truthy rl.1 then ENTRY_STATE_LOADED else ENTRY_STATE_SETUP_ERROR) },
   rl.2)

/-- `ConfigEntry.async_unload` (lines 102-121): `False` when the component
has no `async_unload_entry` attribute; otherwise the callback's return
value, with a raised exception logged and converted to `False`. -/
def ConfigEntry.async_unload (entry : ConfigEntry) (component : Component) :
    PyVal × List String :=
  match component.async_unload_entry with
  | Option.none => (PyVal.bool false, [])
  | some callback =>
      match callback entry with
      | .returns v => (v, [])
      | .raises =>
          (PyVal.bool false,
           ["Error unloading entry " ++ pyStr entry.title ++ " for " ++ entry.domain])

/-- `ConfigEntry.as_dict` (lines 123-133). -/
def ConfigEntry.as_dict (entry : ConfigEntry) : PyDict :=
  [("entry_id", PyVal.str entry.entry_id),
   ("version", PyVal.int entry.version),
   ("domain", PyVal.str entry.domain),
   ("title", entry.title),
   ("data", entry.data),
   ("source", PyVal.str entry.source),
   ("state", PyVal.str entry.state)]

/-- A value of `PyVal` equals a given Python string
(the `result['type'] == RESULT_TYPE_...` comparisons). -/
def PyVal.isStr : PyVal → String → Bool
  | PyVal.str t, s => t == s
  | _, _ => false

/-- `str(step_id)` when the stored step id is interpolated into the method
name `async_step_<id>` (line 349); a non-string renders as an opaque repr
that names no step method. -/
def stepIdString : PyVal → String
  | PyVal.str s => s
  | v => "<" ++ pyStr v ++ ">"

/-- `ConfigEntries.async_domains` (lines 170-181): distinct domains in
first-seen order. -/
def ConfigEntries.async_domains (st : ConfigState) : List String :=
  st.entries.foldl
    (fun seen entry => if entry.domain ∈ seen then seen else seen ++ [entry.domain]) []

/-- `ConfigEntries.async_entries` (lines 183-188). -/
def ConfigEntries.async_entries (st : ConfigState) (domain : Option String) :
    List ConfigEntry :=
  match domain with
  | Option.none => st.entries
  | some d => st.entries.filter (fun entry => entry.domain == d)

/-- `ConfigEntries._async_schedule_save` (lines 243-251): cancel any
pending timer and start a new one; the observable effect kept by the model
is the count of scheduling calls. -/
def ConfigEntries.schedule_save (st : ConfigState) : ConfigState :=
  { st with sched_saves := st.sched_saves + 1 }

/-- Modelled from the spec: `hass.helpers` is the external helpers-loader
collaborator (outside this module; the spec's §2/§6 loader collaborators).
It resolves helper modules by name and has no member named
`UnknownHandler`, so evaluating `self.hass.helpers.UnknownHandler` in the
`raise` statement at line 286 yields the loader's own lookup failure, not
the `UnknownHandler` class defined at line 144. -/
def hass_helpers_UnknownHandler : PyError :=
  PyError.HelpersLoaderError "UnknownHandler"

/-- `FlowManager.async_get_handler` (lines 272-293): return the registered
handler if present; otherwise load the domain's component via
`getattr(hass.components, domain)` — registering whatever handler the
component's code declares — re-check the registry, and on a still-missing
handler raise the value of `self.hass.helpers.UnknownHandler`.  The
`resolve_reqs_deps` block is only reachable on this load path; the
external resolver's failure propagates. -/
def FlowManager.async_get_handler (env : Env) (st : ConfigState) (domain : String)
    (resolve_reqs_deps : Bool) : Except PyError Handler × ConfigState :=
  match st.handlers domain with
  | some handler => (.ok handler, st)
  | Option.none =>
      let handlers' := fun d => if d == domain then env.loads domain else st.handlers d
      let st' := { st with handlers := handlers' }
      match env.loads domain with
      | Option.none => (.error hass_helpers_UnknownHandler, st')
      | some handler =>
          if resolve_reqs_deps then
            match env.async_process_deps_reqs domain with
            | .ok _ => (.ok handler, st')
            | .error e => (.error e, st')
          else (.ok handler, st')

/-- `ConfigEntries.async_add_entry` (lines 190-209): resolve the domain's
handler, validate `entry.data` against `handler.ENTRY_SCHEMA`
(a `vol.Invalid` propagates and nothing is mutated), append the entry,
schedule a debounced save, then either run `entry.async_setup` directly
(component already set up; this mutates the just-appended entry object in
place) or queue an `async_setup_component` job for the domain. -/
def ConfigEntries.async_add_entry (env : Env) (st : ConfigState) (entry : ConfigEntry) :
    Except PyError Unit × ConfigState :=
  match FlowManager.async_get_handler env st entry.domain false with
  | (.error e, st') => (.error e, st')
  | (.ok handler, st') =>
      match handler.ENTRY_SCHEMA entry.data with
      | .error msg => (.error (PyError.Invalid msg), st')
      | .ok _ =>
          let st2 := ConfigEntries.schedule_save
            { st' with entries := st'.entries ++ [entry] }
          if entry.domain ∈ st2.components_setup then
            let setup := ConfigEntry.async_setup entry (env.components entry.domain)
            (.ok (), { st2 with
              entries := st'.entries ++ [setup.1],
              logs := st2.logs ++ setup.2 })
          else
            (.ok (), { st2 with jobs := st2.jobs ++ [entry.domain] })

/-- The `enumerate`/`break` search of `async_remove` (lines 214-218):
index and entry of the first entry whose `entry_id` matches. -/
def findEntry : List ConfigEntry → String → Option (Nat × ConfigEntry)
  | [], _ => Option.none
  | entry :: rest, entry_id =>
      if entry.entry_id == entry_id then some (0, entry)
      else (findEntry rest entry_id).map (fun p => (p.1 + 1, p.2))

/-- `ConfigEntries.async_remove` (lines 211-231): `UnknownEntry` when no
entry matches; otherwise pop the first match, schedule a save, attempt
unload, and report `require_restart = not unloaded`. -/
def ConfigEntries.async_remove (env : Env) (st : ConfigState) (entry_id : String) :
    Except PyError PyDict × ConfigState :=
  match findEntry st.entries entry_id with
  | Option.none => (.error PyError.UnknownEntry, st)
  | some found =>
      let entry := found.2
      let st' := ConfigEntries.schedule_save
        { st with entries := st.entries.eraseIdx found.1 }
      let unload := ConfigEntry.async_unload entry (env.components entry.domain)
      (.ok [("require_restart", PyVal.bool (! truthy unload.1))],
       { st' with logs := st'.logs ++ unload.2 })

/-- Modelled from the spec: the external raw-file read primitive
(`load_json`; the spec's §2 out-of-scope file primitives).  Per §6,
"absence of the file is treated as an empty initial collection, not an
error": reading a missing file yields the empty record list.  A present
file yields its records, already shaped as the `ConfigEntry(**entry)`
reconstruction of line 241. -/
def load_json (file : Option (List ConfigEntry)) : List ConfigEntry :=
  file.getD []

/-- `ConfigEntries.async_load` (lines 233-241): set `_entries` to `[]`
when no persisted file exists (the source has no early return here), then
unconditionally read the file and rebuild `_entries` from its records. -/
def ConfigEntries.async_load (file : Option (List ConfigEntry)) (st : ConfigState) :
    ConfigState :=
  let st1 := if file.isNone then { st with entries := [] } else st
  { st1 with entries := load_json file }

/-- `FlowManager.async_progress` (lines 295-302). -/
def FlowManager.async_progress (st : ConfigState) : List PyDict :=
  st.progress.map (fun p =>
    [("flow_id", PyVal.str p.2.flow_id),
     ("domain", PyVal.str p.2.domain),
     ("source", PyVal.str p.2.source)])

/-- `FlowManager._async_handle_step` (lines 346-381): resolve the step
method (`hasattr`; an unsupported step pops the flow and raises
`UnknownStep`), run it, reject result types outside the closed set with a
`ValueError` (leaving the flow in progress), update `cur_step` and strip
`step_id` for a `form` result, pop the flow for `abort`/`create_entry`,
and for `create_entry` build a `ConfigEntry` from the flow's bound
`VERSION`/`domain`/`source` plus the result's `title`/popped `data` and
delegate to `async_add_entry`, whose failure propagates. -/
def FlowManager.handle_step (env : Env) (st : ConfigState) (flow : Flow)
    (step_id : String) (user_input : Option PyVal) :
    Except PyError PyDict × ConfigState :=
  match flow.handler.steps step_id with
  | Option.none =>
      -- self._progress.pop(flow.flow_id); raise UnknownStep(...)
      (match dictGet st.progress flow.flow_id with
       | Option.none => (.error (PyError.KeyError flow.flow_id), st)
       | some _ =>
           (.error (PyError.UnknownStep step_id),
            { st with progress := dictErase st.progress flow.flow_id }))
  | some method =>
      let result := method user_input
      match dictGet result "type" with
      | Option.none => (.error (PyError.KeyError "type"), st)
      | some tv =>
          if !(tv.isStr RESULT_TYPE_FORM || tv.isStr RESULT_TYPE_CREATE_ENTRY ||
               tv.isStr RESULT_TYPE_ABORT) then
            (.error (PyError.ValueError ("Handler returned incorrect type: " ++ pyStr tv)),
             st)
          else if tv.isStr RESULT_TYPE_FORM then
            -- flow.cur_step = (result.pop('step_id'), result['data_schema'])
            match dictGet result "step_id" with
            | Option.none => (.error (PyError.KeyError "step_id"), st)
            | some sid =>
                let result' := dictErase result "step_id"
                match dictGet result' "data_schema" with
                | Option.none => (.error (PyError.KeyError "data_schema"), st)
                | some dsch =>
                    let flow' := { flow with cur_step := some (sid, dsch) }
                    (.ok result',
                     { st with progress := dictUpdate st.progress flow.flow_id flow' })
          else
            -- Abort and Success results both finish the flow:
            -- self._progress.pop(flow.flow_id)
            match dictGet st.progress flow.flow_id with
            | Option.none => (.error (PyError.KeyError flow.flow_id), st)
            | some _ =>
                let st' := { st with progress := dictErase st.progress flow.flow_id }
                if tv.isStr RESULT_TYPE_ABORT then (.ok result, st')
                else
                  match dictGet result "title" with
                  | Option.none => (.error (PyError.KeyError "title"), st')
                  | some title =>
                      match dictGet result "data" with
                      | Option.none => (.error (PyError.KeyError "data"), st')
                      | some data =>
                          let result' := dictErase result "data"
                          let entry : ConfigEntry := {
                            entry_id := freshId st'.fresh,
                            version := flow.handler.VERSION,
                            domain := flow.domain,
                            title := title,
                            data := data,
                            source := flow.source,
                            state := ENTRY_STATE_NOT_LOADED }
                          let st2 := { st' with fresh := st'.fresh + 1 }
                          match ConfigEntries.async_add_entry env st2 entry with
                          | (.ok _, st3) => (.ok result', st3)
                          | (.error e, st3) => (.error e, st3)

/-- `FlowManager.async_init` (lines 304-322): resolve the handler (with
requirement resolution forced on the load path), allocate a `flow_id`,
instantiate and bind the flow, and dispatch the initial step — `"init"`
for `source == user`, the source tag itself otherwise. -/
def FlowManager.async_init (env : Env) (st : ConfigState) (domain : String)
    (source : String) (data : Option PyVal) :
    Except PyError PyDict × ConfigState :=
  match FlowManager.async_get_handler env st domain true with
  | (.error e, st') => (.error e, st')
  | (.ok handler, st') =>
      let flow_id := freshId st'.fresh
      let flow : Flow := {
        flow_id := flow_id, domain := domain, source := source,
        handler := handler, cur_step := Option.none }
      let st2 := { st' with
        progress := st'.progress ++ [(flow_id, flow)],
        fresh := st'.fresh + 1 }
      let step := if source == SOURCE_USER then "init" else source
      FlowManager.handle_step env st2 flow step data

/-- `FlowManager.async_configure` (lines 324-338): `UnknownFlow` for an
unknown id; unpack `cur_step` (a `TypeError` when it was never set);
validate the supplied input through the stored `data_schema` when both are
non-`None` (a `vol.Invalid` propagates); dispatch the stored step. -/
def FlowManager.async_configure (env : Env) (st : ConfigState) (flow_id : String)
    (user_input : Option PyVal) : Except PyError PyDict × ConfigState :=
  match dictGet st.progress flow_id with
  | Option.none => (.error PyError.UnknownFlow, st)
  | some flow =>
      match flow.cur_step with
      | Option.none =>
          (.error (PyError.TypeError "cannot unpack non-iterable NoneType object"), st)
      | some cur =>
          match cur.2, user_input with
          | PyVal.none, _ =>
              FlowManager.handle_step env st flow (stepIdString cur.1) user_input
          | _, Option.none =>
              FlowManager.handle_step env st flow (stepIdString cur.1) user_input
          | PyVal.schemaRef n, some input =>
              (match env.schemas n input with
               | .ok validated =>
                   FlowManager.handle_step env st flow (stepIdString cur.1) (some validated)
               | .error msg => (.error (PyError.Invalid msg), st))
          | _, some _ =>
              (.error (PyError.TypeError "object is not callable"), st)

/-- `FlowManager.async_abort` (lines 340-344):
`self._progress.pop(flow_id, None)` with `UnknownFlow` on a miss. -/
def FlowManager.async_abort (st : ConfigState) (flow_id : String) :
    Except PyError Unit × ConfigState :=
  match dictGet st.progress flow_id with
  | Option.none => (.error PyError.UnknownFlow, st)
  | some _ => (.ok (), { st with progress := dictErase st.progress flow_id })

/-- `ConfigFlowHandler.async_show_form` (lines 396-408). -/
def ConfigFlowHandler.async_show_form (flow_id : String) (title : String)
    (step_id : String) (description : PyVal) (data_schema : PyVal)
    (errors : PyVal) : PyDict :=
  [("type", PyVal.str RESULT_TYPE_FORM),
   ("flow_id", PyVal.str flow_id),
   ("title", PyVal.str title),
   ("step_id", PyVal.str step_id),
   ("description", description),
   ("data_schema", data_schema),
   ("errors", errors)]

/-- `ConfigFlowHandler.async_create_entry` (lines 410-418). -/
def ConfigFlowHandler.async_create_entry (flow_id : String) (title : String)
    (data : PyVal) : PyDict :=
  [("type", PyVal.str RESULT_TYPE_CREATE_ENTRY),
   ("flow_id", PyVal.str flow_id),
   ("title", PyVal.str title),
   ("data", data)]

/-- `ConfigFlowHandler.async_abort` (lines 420-427). -/
def ConfigFlowHandler.async_abort (flow_id : String) (reason : String) : PyDict :=
  [("type", PyVal.str RESULT_TYPE_ABORT),
   ("flow_id", PyVal.str flow_id),
   ("reason", PyVal.str reason)]

/-! ## Concrete fixtures (sample plugins, handlers, flows and states) -/

/-- A well-behaved component: setup returns `True`, no unload hook. -/
def compW : Component := {
  async_setup_entry := fun _ => .returns (PyVal.bool true),
  async_unload_entry := Option.none }

/-- A component whose setup callback returns the non-boolean `1`. -/
def compNonBool : Component := {
  async_setup_entry := fun _ => .returns (PyVal.int 1),
  async_unload_entry := Option.none }

/-- Sample entry data. -/
def dataW : PyVal := PyVal.dict [("host", PyVal.str "10.0.0.5")]

/-- A handler whose schema accepts exactly dict data and whose only step,
`init`, immediately creates an entry. -/
def handlerW : Handler := {
  VERSION := 1,
  ENTRY_SCHEMA := fun v => match v with
    | PyVal.dict l => .ok (PyVal.dict l)
    | _ => .error "expected a dictionary",
  steps := fun sid =>
    if sid == "init" then
      some (fun _ => ConfigFlowHandler.async_create_entry "f1" "Kitchen" dataW)
    else Option.none }

def flowW : Flow := {
  flow_id := "f1", domain := "demo", source := "user",
  handler := handlerW, cur_step := Option.none }

/-- An environment where loading a component never registers a flow
handler and every domain resolves to the well-behaved component. -/
def envW : Env := {
  components := fun _ => compW,
  loads := fun _ => Option.none,
  schemas := fun _ v => .ok v,
  async_process_deps_reqs := fun _ => .ok () }

def stW : ConfigState := {
  handlers := fun d => if d == "demo" then some handlerW else Option.none,
  entries := [], progress := [("f1", flowW)], components_setup := [],
  sched_saves := 0, jobs := [], logs := [], fresh := 0 }

/-- A state with nothing registered, nothing stored, nothing running. -/
def stEmpty : ConfigState := {
  handlers := fun _ => Option.none, entries := [], progress := [],
  components_setup := [], sched_saves := 0, jobs := [], logs := [], fresh := 0 }

def entryW : ConfigEntry := {
  entry_id := "e1", version := 1, domain := "demo",
  title := PyVal.str "Kitchen", data := dataW, source := "user",
  state := ENTRY_STATE_NOT_LOADED }

/-- An entry whose data violates `handlerW`'s schema. -/
def entryBad : ConfigEntry := {
  entry_id := "e2", version := 1, domain := "demo",
  title := PyVal.str "Bad", data := PyVal.int 5, source := "user",
  state := ENTRY_STATE_NOT_LOADED }

def entryX : ConfigEntry := {
  entry_id := "e9", version := 1, domain := "demo",
  title := PyVal.str "Kitchen", data := PyVal.none, source := "user",
  state := ENTRY_STATE_NOT_LOADED }

/-- State holding the single entry `entryW`. -/
def stOne : ConfigState := {
  handlers := fun d => if d == "demo" then some handlerW else Option.none,
  entries := [entryW], progress := [], components_setup := [],
  sched_saves := 0, jobs := [], logs := [], fresh := 0 }

/-- A handler whose schema rejects every data value. -/
def handlerReject : Handler := {
  VERSION := 3,
  ENTRY_SCHEMA := fun _ => .error "extra keys not allowed",
  steps := fun sid =>
    if sid == "init" then
      some (fun _ => ConfigFlowHandler.async_create_entry "f2" "Kitchen" dataW)
    else Option.none }

def flowReject : Flow := {
  flow_id := "f2", domain := "demo2", source := "user",
  handler := handlerReject, cur_step := Option.none }

def stReject : ConfigState := {
  handlers := fun d => if d == "demo2" then some handlerReject else Option.none,
  entries := [], progress := [("f2", flowReject)], components_setup := [],
  sched_saves := 0, jobs := [], logs := [], fresh := 0 }

/-- A handler whose `init` step returns a result of an illegal type. -/
def handlerWeird : Handler := {
  VERSION := 1,
  ENTRY_SCHEMA := fun v => .ok v,
  steps := fun sid =>
    if sid == "init" then
      some (fun _ => [("type", PyVal.str "weird"), ("flow_id", PyVal.str "f4")])
    else Option.none }

def flowWeird : Flow := {
  flow_id := "f4", domain := "demo", source := "user",
  handler := handlerWeird, cur_step := Option.none }

def stWeird : ConfigState := {
  handlers := fun d => if d == "demo" then some handlerWeird else Option.none,
  entries := [], progress := [("f4", flowWeird)], components_setup := [],
  sched_saves := 0, jobs := [], logs := [], fresh := 0 }

/-- A handler whose `init` step shows a form for step `user`. -/
def handlerForm : Handler := {
  VERSION := 2,
  ENTRY_SCHEMA := fun v => .ok v,
  steps := fun sid =>
    if sid == "init" then
      some (fun _ => ConfigFlowHandler.async_show_form "f5" "Fill in" "user"
        PyVal.none PyVal.none PyVal.none)
    else Option.none }

def flowForm : Flow := {
  flow_id := "f5", domain := "demo", source := "user",
  handler := handlerForm, cur_step := Option.none }

def stForm : ConfigState := {
  handlers := fun d => if d == "demo" then some handlerForm else Option.none,
  entries := [], progress := [("f5", flowForm)], components_setup := [],
  sched_saves := 0, jobs := [], logs := [], fresh := 0 }

/-- A flow dispatched to a step its handler does not implement. -/
def flowNoStep : Flow := {
  flow_id := "f6", domain := "demo", source := "user",
  handler := handlerW, cur_step := Option.none }

def stNoStep : ConfigState := {
  handlers := fun d => if d == "demo" then some handlerW else Option.none,
  entries := [], progress := [("f6", flowNoStep)], components_setup := [],
  sched_saves := 0, jobs := [], logs := [], fresh := 0 }

/-! ## General lemmas about the dict model and the operations -/

theorem dictGet_erase_self {α : Type} (l : List (String × α)) (k : String) :
    dictGet (dictErase l k) k = Option.none := by
  induction l with
  | nil => rfl
  | cons p rest ih =>
      obtain ⟨k', v⟩ := p
      by_cases h : k' == k
      · simpa [dictErase, h] using ih
      · simpa [dictErase, dictGet, h] using ih

theorem dictGet_some_mem {α : Type} (l : List (String × α)) (k : String) (v : α)
    (h : dictGet l k = some v) : (k, v) ∈ l := by
  induction l with
  | nil => simp [dictGet] at h
  | cons p rest ih =>
      obtain ⟨k', v'⟩ := p
      by_cases hk : k' == k
      · simp only [dictGet, hk, if_pos] at h
        obtain rfl : v' = v := by simpa using h
        obtain rfl : k' = k := by simpa using hk
        exact List.mem_cons_self _ _
      · simp only [dictGet, hk, if_neg, Bool.false_eq_true, not_false_iff] at h
        exact List.mem_cons_of_mem _ (ih h)

theorem findEntry_eq_none_iff (l : List ConfigEntry) (entry_id : String) :
    findEntry l entry_id = Option.none ↔ ∀ e ∈ l, e.entry_id ≠ entry_id := by
  induction l with
  | nil => simp [findEntry]
  | cons e rest ih =>
      by_cases h : e.entry_id == entry_id
      · simp [findEntry, h, eq_of_beq h]
      · simp only [findEntry, h, Bool.false_eq_true, if_neg, not_false_iff,
          Option.map_eq_none', List.mem_cons]
        constructor
        · rintro hn x (rfl | hx)
          · simpa using h
          · exact (ih.mp hn) x hx
        · intro hall
          exact ih.mpr fun x hx => hall x (Or.inr hx)

/-- `async_get_handler` touches only the `HANDLERS` registry: every other
state component is returned unchanged. -/
theorem async_get_handler_preserves (env : Env) (st : ConfigState) (domain : String)
    (r : Bool) :
    ((FlowManager.async_get_handler env st domain r).2.entries = st.entries)
    ∧ ((FlowManager.async_get_handler env st domain r).2.progress = st.progress)
    ∧ ((FlowManager.async_get_handler env st domain r).2.sched_saves = st.sched_saves)
    ∧ ((FlowManager.async_get_handler env st domain r).2.jobs = st.jobs)
    ∧ ((FlowManager.async_get_handler env st domain r).2.logs = st.logs)
    ∧ ((FlowManager.async_get_handler env st domain r).2.fresh = st.fresh)
    ∧ ((FlowManager.async_get_handler env st domain r).2.components_setup
        = st.components_setup) := by
  unfold FlowManager.async_get_handler
  cases st.handlers domain with
  | some h => exact ⟨rfl, rfl, rfl, rfl, rfl, rfl, rfl⟩
  | none =>
      cases env.loads domain with
      | none => exact ⟨rfl, rfl, rfl, rfl, rfl, rfl, rfl⟩
      | some h =>
          cases r with
          | false => exact ⟨rfl, rfl, rfl, rfl, rfl, rfl, rfl⟩
          | true =>
              cases env.async_process_deps_reqs domain with
              | ok u => exact ⟨rfl, rfl, rfl, rfl, rfl, rfl, rfl⟩
              | error e => exact ⟨rfl, rfl, rfl, rfl, rfl, rfl, rfl⟩

/-- Without the `resolve_reqs_deps` flag, the only error `async_get_handler`
can produce is the outcome of the `hass.helpers.UnknownHandler` lookup. -/
theorem async_get_handler_false_error (env : Env) (st : ConfigState) (domain : String)
    (e : PyError) (st' : ConfigState)
    (h : FlowManager.async_get_handler env st domain false = (.error e, st')) :
    e = hass_helpers_UnknownHandler := by
  unfold FlowManager.async_get_handler at h
  cases hh : st.handlers domain with
  | some handler => simp [hh] at h
  | none =>
      simp only [hh] at h
      cases hl : env.loads domain with
      | none =>
          simp only [hl, Prod.mk.injEq, Except.error.injEq] at h
          exact h.1.symm
      | some handler => simp [hl] at h

theorem PyVal.isStr_eq {v : PyVal} {s : String} (h : v.isStr s = true) :
    v = PyVal.str s := by
  cases v <;> simp_all [PyVal.isStr]

/-- `async_add_entry` never fails with `UnknownFlow`: its only errors are
the handler-lookup failure and schema invalidity. -/
theorem async_add_entry_ne_UnknownFlow (env : Env) (st : ConfigState)
    (entry : ConfigEntry) :
    (ConfigEntries.async_add_entry env st entry).1 ≠ .error PyError.UnknownFlow := by
  unfold ConfigEntries.async_add_entry
  rcases hg : FlowManager.async_get_handler env st entry.domain false with ⟨res, st'⟩
  cases res with
  | error e =>
      have he := async_get_handler_false_error env st entry.domain e st' hg
      simp [hg, he, hass_helpers_UnknownHandler]
  | ok handler =>
      simp only [hg]
      cases hv : handler.ENTRY_SCHEMA entry.data with
      | error msg => simp [hv]
      | ok v => simp only [hv]; split <;> simp

/-- `_async_handle_step` never fails with `UnknownFlow`. -/
theorem handle_step_ne_UnknownFlow (env : Env) (st : ConfigState) (flow : Flow)
    (step_id : String) (user_input : Option PyVal) :
    (FlowManager.handle_step env st flow step_id user_input).1
      ≠ .error PyError.UnknownFlow := by
  cases hs : flow.handler.steps step_id with
  | none =>
      cases hp : dictGet st.progress flow.flow_id <;>
        simp [FlowManager.handle_step, hs, hp]
  | some method =>
      cases ht : dictGet (method user_input) "type" with
      | none => simp [FlowManager.handle_step, hs, ht]
      | some tv =>
          cases hF : tv.isStr RESULT_TYPE_FORM with
          | true =>
              obtain rfl := PyVal.isStr_eq hF
              cases hsid : dictGet (method user_input) "step_id" with
              | none => simp +decide [FlowManager.handle_step, hs, ht, hsid]
              | some sid =>
                  cases hds : dictGet (dictErase (method user_input) "step_id")
                      "data_schema" <;>
                    simp +decide [FlowManager.handle_step, hs, ht, hsid, hds]
          | false =>
              cases hC : tv.isStr RESULT_TYPE_CREATE_ENTRY with
              | true =>
                  obtain rfl := PyVal.isStr_eq hC
                  cases hp : dictGet st.progress flow.flow_id with
                  | none => simp +decide [FlowManager.handle_step, hs, ht, hp]
                  | some f =>
                      cases htl : dictGet (method user_input) "title" with
                      | none => simp +decide [FlowManager.handle_step, hs, ht, hp, htl]
                      | some title =>
                          cases hd : dictGet (method user_input) "data" with
                          | none =>
                              simp +decide [FlowManager.handle_step, hs, ht, hp, htl, hd]
                          | some data =>
                              simp only [FlowManager.handle_step, hs, ht]
                              simp +decide only [PyVal.isStr]
                              simp only [hp, htl, hd]
                              have hne := async_add_entry_ne_UnknownFlow env
                                { st with progress := dictErase st.progress flow.flow_id,
                                          fresh := st.fresh + 1 }
                                { entry_id := freshId st.fresh,
                                  version := flow.handler.VERSION,
                                  domain := flow.domain, title := title, data := data,
                                  source := flow.source,
                                  state := ENTRY_STATE_NOT_LOADED }
                              rcases hadd : ConfigEntries.async_add_entry env
                                { st with progress := dictErase st.progress flow.flow_id,
                                          fresh := st.fresh + 1 }
                                { entry_id := freshId st.fresh,
                                  version := flow.handler.VERSION,
                                  domain := flow.domain, title := title, data := data,
                                  source := flow.source,
                                  state := ENTRY_STATE_NOT_LOADED } with ⟨r, s3⟩
                              rw [hadd] at hne
                              cases r with
                              | ok u => simp
                              | error e => simpa using hne
              | false =>
                  cases hA : tv.isStr RESULT_TYPE_ABORT with
                  | true =>
                      obtain rfl := PyVal.isStr_eq hA
                      cases hp : dictGet st.progress flow.flow_id <;>
                        simp +decide [FlowManager.handle_step, hs, ht, hp]
                  | false =>
                      simp [FlowManager.handle_step, hs, ht, hF, hC, hA]

/-- A flow id still present in `_progress` is never rejected with
`UnknownFlow` by `async_configure`. -/
theorem async_configure_ne_UnknownFlow (env : Env) (st : ConfigState)
    (flow_id : String) (flow : Flow) (user_input : Option PyVal)
    (h : dictGet st.progress flow_id = some flow) :
    (FlowManager.async_configure env st flow_id user_input).1
      ≠ .error PyError.UnknownFlow := by
  unfold FlowManager.async_configure
  rw [h]
  cases hcs : flow.cur_step with
  | none => simp [hcs]
  | some cur =>
      simp only [hcs]
      rcases cur with ⟨sid, dsch⟩
      dsimp only
      cases user_input with
      | none => cases dsch <;> exact handle_step_ne_UnknownFlow env st flow _ _
      | some input =>
          cases dsch with
          | none => exact handle_step_ne_UnknownFlow env st flow _ _
          | schemaRef n =>
              dsimp only
              cases hv : env.schemas n input with
              | ok validated =>
                  simp only [hv]
                  exact handle_step_ne_UnknownFlow env st flow _ _
              | error msg => simp [hv]
          | str s => simp
          | int k => simp
          | bool b => simp
          | dict l => simp

/-- The success path of `async_add_entry`: with the domain's handler
registered and the data accepted by its schema, exactly one entry — the
given one, up to the `state` mutation its synchronous setup may apply —
is appended, a save is scheduled, and the progress map is untouched. -/
theorem async_add_entry_ok (env : Env) (st : ConfigState) (entry : ConfigEntry)
    (handler : Handler) (coerced : PyVal)
    (hhandler : st.handlers entry.domain = some handler)
    (hschema : handler.ENTRY_SCHEMA entry.data = .ok coerced) :
    ((ConfigEntries.async_add_entry env st entry).1 = .ok ())
    ∧ (∃ e, (ConfigEntries.async_add_entry env st entry).2.entries
          = st.entries ++ [e]
        ∧ e.entry_id = entry.entry_id ∧ e.version = entry.version
        ∧ e.domain = entry.domain ∧ e.title = entry.title
        ∧ e.data = entry.data ∧ e.source = entry.source)
    ∧ (ConfigEntries.async_add_entry env st entry).2.progress = st.progress
    ∧ (ConfigEntries.async_add_entry env st entry).2.sched_saves
        = st.sched_saves + 1 := by
  have hget : FlowManager.async_get_handler env st entry.domain false
      = (.ok handler, st) := by
    unfold FlowManager.async_get_handler
    rw [hhandler]
  unfold ConfigEntries.async_add_entry
  rw [hget]
  simp only [hschema]
  split
  · exact ⟨rfl,
      ⟨(ConfigEntry.async_setup entry (env.components entry.domain)).1,
       rfl, rfl, rfl, rfl, rfl, rfl, rfl⟩, rfl, rfl⟩
  · exact ⟨rfl, ⟨entry, rfl, rfl, rfl, rfl, rfl, rfl, rfl⟩, rfl, rfl⟩

/-! ## The claims -/

/-- C5: whatever the plugin's setup callback does — returns any value or
raises — `ConfigEntry.async_setup` never propagates an exception (it is a
total function of the callback's outcome); afterwards the entry's state is
`loaded` exactly when the callback returned a truthy value without
raising, and `setup_error` in every other case (including every raising
callback). -/
theorem C5_async_setup_total_state (entry : ConfigEntry) (component : Component) :
    ((ConfigEntry.async_setup entry component).1.state =
      (match component.async_setup_entry entry with
       | Outcome.returns v =>
           if truthy v then ENTRY_STATE_LOADED else ENTRY_STATE_SETUP_ERROR
       | Outcome.raises => ENTRY_STATE_SETUP_ERROR))
    ∧ ((ConfigEntry.async_setup entry component).1.state = ENTRY_STATE_LOADED
        ↔ ∃ v, component.async_setup_entry entry = Outcome.returns v
            ∧ truthy v = true) := by
  have hstate : (ConfigEntry.async_setup entry component).1.state =
      (match component.async_setup_entry entry with
       | Outcome.returns v =>
           if truthy v then ENTRY_STATE_LOADED else ENTRY_STATE_SETUP_ERROR
       | Outcome.raises => ENTRY_STATE_SETUP_ERROR) := by
    unfold ConfigEntry.async_setup
    cases component.async_setup_entry entry with
    | returns v => by_cases hv : truthy v <;> simp [hv]
    | raises => simp [truthy]
  refine ⟨hstate, ?_⟩
  rw [hstate]
  cases ho : component.async_setup_entry entry with
  | returns v =>
      by_cases hv : truthy v
      · simp +decide [hv]
      · simp +decide [hv, ENTRY_STATE_LOADED, ENTRY_STATE_SETUP_ERROR]
  | raises => simp +decide [ENTRY_STATE_LOADED, ENTRY_STATE_SETUP_ERROR]

/-- C6 counterexample: a setup callback returning the truthy non-boolean
`1` is logged as a contract violation but the entry still ends in state
`loaded`, not `setup_error` — refuting the claim that every non-boolean
return is treated as failure. -/
theorem C6_counterexample :
    (ConfigEntry.async_setup entryX compNonBool).1.state = ENTRY_STATE_LOADED
    ∧ PyVal.isBool (PyVal.int 1) = false
    ∧ (ConfigEntry.async_setup entryX compNonBool).2 =
        ["demo.async_config_entry did not return boolean"]
    ∧ ENTRY_STATE_LOADED ≠ ENTRY_STATE_SETUP_ERROR :=
  ⟨rfl, rfl, rfl, by decide⟩

/-- C6 (amended): a setup callback that returns a non-boolean without
raising is logged as a contract violation, and is treated as failure
(state `setup_error`) only when the value is falsy; a truthy non-boolean
still counts as success (state `loaded`). -/
theorem C6_nonbool_logged (entry : ConfigEntry) (component : Component) (v : PyVal)
    (hret : component.async_setup_entry entry = Outcome.returns v)
    (hnb : PyVal.isBool v = false) :
    (ConfigEntry.async_setup entry component).2 =
      [entry.domain ++ ".async_config_entry did not return boolean"]
    ∧ (ConfigEntry.async_setup entry component).1.state =
        (if truthy v then ENTRY_STATE_LOADED else ENTRY_STATE_SETUP_ERROR) := by
  constructor
  · simp [ConfigEntry.async_setup, hret, hnb]
  · simp [ConfigEntry.async_setup, hret]

theorem C6_nonbool_logged_witness :
    (ConfigEntry.async_setup entryX compNonBool).2 =
      ["demo.async_config_entry did not return boolean"]
    ∧ (ConfigEntry.async_setup entryX compNonBool).1.state =
        (if truthy (PyVal.int 1) then ENTRY_STATE_LOADED
         else ENTRY_STATE_SETUP_ERROR) :=
  C6_nonbool_logged entryX compNonBool (PyVal.int 1) rfl rfl

/-- C8: loading when no persisted file exists completes without error
(`async_load` is total here: the spec-modelled read primitive treats an
absent file as empty, not as a failure) and leaves the entry collection
empty, every other state component untouched. -/
theorem C8_load_missing_file (st : ConfigState) :
    ConfigEntries.async_load Option.none st = { st with entries := [] } := rfl

/-- C2 (code bug): for a domain with no registered handler factory even
after the component-loading collaborator ran, `async_get_handler` does not
raise the module's `UnknownHandler` error; it raises the value of the
attribute lookup `self.hass.helpers.UnknownHandler` on the external
helpers loader, which fails in the loader (line 286 names the wrong
namespace; the `UnknownHandler` class of line 144 is never raised). -/
theorem C2_unknown_handler_code_bug :
    (FlowManager.async_get_handler envW stEmpty "demo" false).1 =
      .error (PyError.HelpersLoaderError "UnknownHandler")
    ∧ envW.loads "demo" = Option.none
    ∧ stEmpty.handlers "demo" = Option.none
    ∧ PyError.HelpersLoaderError "UnknownHandler" ≠ PyError.UnknownHandler :=
  ⟨rfl, rfl, rfl, by decide⟩

/-- C3: when the entry's data fails the domain handler's declared schema,
`async_add_entry` raises the validation error to the caller, the entry is
not appended, and no save is scheduled, no job queued, nothing logged. -/
theorem C3_add_entry_invalid_data (env : Env) (st : ConfigState)
    (entry : ConfigEntry) (handler : Handler) (st' : ConfigState) (msg : String)
    (hget : FlowManager.async_get_handler env st entry.domain false
      = (.ok handler, st'))
    (hschema : handler.ENTRY_SCHEMA entry.data = .error msg) :
    ConfigEntries.async_add_entry env st entry = (.error (PyError.Invalid msg), st')
    ∧ st'.entries = st.entries
    ∧ st'.sched_saves = st.sched_saves
    ∧ st'.jobs = st.jobs
    ∧ st'.logs = st.logs := by
  have hpres := async_get_handler_preserves env st entry.domain false
  rw [hget] at hpres
  refine ⟨?_, hpres.1, hpres.2.2.1, hpres.2.2.2.1, hpres.2.2.2.2.1⟩
  unfold ConfigEntries.async_add_entry
  rw [hget]
  simp [hschema]

theorem C3_add_entry_invalid_data_witness :
    ConfigEntries.async_add_entry envW stW entryBad =
      (.error (PyError.Invalid "expected a dictionary"), stW)
    ∧ (ConfigEntries.async_add_entry envW stW entryBad).2.entries = stW.entries :=
  ⟨(C3_add_entry_invalid_data envW stW entryBad handlerW stW
      "expected a dictionary" rfl rfl).1,
   by rw [(C3_add_entry_invalid_data envW stW entryBad handlerW stW
      "expected a dictionary" rfl rfl).1]⟩

/-- C4: `async_remove` fails with `UnknownEntry` exactly when no entry
carries the requested id, leaving the state unchanged in that case;
otherwise it removes precisely the first matching entry (the collection
shrinks before unload is even attempted — the removal does not depend on
the unload outcome) and returns `require_restart` equal to the negation of
the unload outcome. -/
theorem C4_async_remove_spec (env : Env) (st : ConfigState) (entry_id : String) :
    ((ConfigEntries.async_remove env st entry_id).1 = .error PyError.UnknownEntry
      ↔ ∀ e ∈ st.entries, e.entry_id ≠ entry_id)
    ∧ ((∀ e ∈ st.entries, e.entry_id ≠ entry_id) →
        ConfigEntries.async_remove env st entry_id
          = (.error PyError.UnknownEntry, st))
    ∧ (∀ i e, findEntry st.entries entry_id = some (i, e) →
        ConfigEntries.async_remove env st entry_id =
          (.ok [("require_restart",
              PyVal.bool (! truthy
                (ConfigEntry.async_unload e (env.components e.domain)).1))],
           { st with entries := st.entries.eraseIdx i,
                     sched_saves := st.sched_saves + 1,
                     logs := st.logs ++
                       (ConfigEntry.async_unload e (env.components e.domain)).2 })) := by
  cases hf : findEntry st.entries entry_id with
  | none =>
      have hnone := (findEntry_eq_none_iff st.entries entry_id).mp hf
      refine ⟨⟨fun _ => hnone, fun _ => ?_⟩, fun _ => ?_, ?_⟩
      · simp [ConfigEntries.async_remove, hf]
      · simp [ConfigEntries.async_remove, hf]
      · intro i e hie
        exact Option.noConfusion hie
  | some p =>
      rcases p with ⟨i0, e0⟩
      refine ⟨?_, ?_, ?_⟩
      · constructor
        · intro habs
          simp [ConfigEntries.async_remove, hf] at habs
        · intro hall
          have hn := (findEntry_eq_none_iff st.entries entry_id).mpr hall
          rw [hf] at hn
          cases hn
      · intro hall
        have hn := (findEntry_eq_none_iff st.entries entry_id).mpr hall
        rw [hf] at hn
        cases hn
      · intro i e hie
        simp only [Option.some.injEq, Prod.mk.injEq] at hie
        obtain ⟨rfl, rfl⟩ := hie
        simp [ConfigEntries.async_remove, hf, ConfigEntries.schedule_save]

theorem C4_async_remove_spec_witness :
    ConfigEntries.async_remove envW stOne "e1" =
      (.ok [("require_restart", PyVal.bool true)],
       { stOne with entries := [], sched_saves := 1 })
    ∧ ConfigEntries.async_remove envW stOne "zzz"
        = (.error PyError.UnknownEntry, stOne) := by
  refine ⟨?_, ?_⟩
  · exact (C4_async_remove_spec envW stOne "e1").2.2 0 entryW rfl
  · exact (C4_async_remove_spec envW stOne "zzz").2.1 (by decide)

/-- C7: dispatching a flow to a step id its handler does not implement
removes the flow from the in-progress set and raises `UnknownStep`; the
flow id is invalid afterwards — `async_configure` and `async_abort` on it
both fail with `UnknownFlow`. -/
theorem C7_unknown_step_fatal (env : Env) (st : ConfigState) (flow : Flow)
    (step_id : String) (user_input input2 : Option PyVal)
    (hin : dictGet st.progress flow.flow_id = some flow)
    (hstep : flow.handler.steps step_id = Option.none) :
    FlowManager.handle_step env st flow step_id user_input =
      (.error (PyError.UnknownStep step_id),
       { st with progress := dictErase st.progress flow.flow_id })
    ∧ dictGet (dictErase st.progress flow.flow_id) flow.flow_id = Option.none
    ∧ FlowManager.async_configure env
        { st with progress := dictErase st.progress flow.flow_id }
        flow.flow_id input2
        = (.error PyError.UnknownFlow,
           { st with progress := dictErase st.progress flow.flow_id })
    ∧ FlowManager.async_abort
        { st with progress := dictErase st.progress flow.flow_id } flow.flow_id
        = (.error PyError.UnknownFlow,
           { st with progress := dictErase st.progress flow.flow_id }) := by
  have herase := dictGet_erase_self st.progress flow.flow_id
  refine ⟨?_, herase, ?_, ?_⟩
  · simp [FlowManager.handle_step, hstep, hin]
  · unfold FlowManager.async_configure
    simp [herase]
  · unfold FlowManager.async_abort
    simp [herase]

theorem C7_unknown_step_fatal_witness :
    FlowManager.handle_step envW stNoStep flowNoStep "missing" Option.none =
      (.error (PyError.UnknownStep "missing"), { stNoStep with progress := [] })
    ∧ (FlowManager.async_configure envW { stNoStep with progress := [] } "f6"
        Option.none).1 = .error PyError.UnknownFlow := by
  have h := C7_unknown_step_fatal envW stNoStep flowNoStep "missing"
    Option.none Option.none rfl rfl
  exact ⟨h.1, congrArg Prod.fst h.2.2.1⟩

/-- C9: a step result whose `type` is none of `form`, `create_entry`,
`abort` raises a `ValueError` but — unlike the unknown-step case — leaves
the state exactly as it was: the flow still shows up in `async_progress`,
`async_configure` does not reject its id with `UnknownFlow`, and
`async_abort` still succeeds in cancelling it. -/
theorem C9_invalid_result_type_flow_survives (env : Env) (st : ConfigState)
    (flow : Flow) (step_id : String) (user_input : Option PyVal)
    (method : Option PyVal → PyDict) (tv : PyVal)
    (hin : dictGet st.progress flow.flow_id = some flow)
    (hstep : flow.handler.steps step_id = some method)
    (htype : dictGet (method user_input) "type" = some tv)
    (hF : tv.isStr RESULT_TYPE_FORM = false)
    (hC : tv.isStr RESULT_TYPE_CREATE_ENTRY = false)
    (hA : tv.isStr RESULT_TYPE_ABORT = false) :
    FlowManager.handle_step env st flow step_id user_input =
      (.error (PyError.ValueError ("Handler returned incorrect type: " ++ pyStr tv)),
       st)
    ∧ (∃ rec ∈ FlowManager.async_progress st,
        dictGet rec "flow_id" = some (PyVal.str flow.flow_id))
    ∧ (∀ input2, (FlowManager.async_configure env st flow.flow_id input2).1
        ≠ .error PyError.UnknownFlow)
    ∧ FlowManager.async_abort st flow.flow_id =
        (.ok (), { st with progress := dictErase st.progress flow.flow_id }) := by
  refine ⟨?_, ?_, ?_, ?_⟩
  · simp [FlowManager.handle_step, hstep, htype, hF, hC, hA]
  · refine ⟨[("flow_id", PyVal.str flow.flow_id),
             ("domain", PyVal.str flow.domain),
             ("source", PyVal.str flow.source)], ?_, rfl⟩
    have hmem := dictGet_some_mem st.progress flow.flow_id flow hin
    unfold FlowManager.async_progress
    exact List.mem_map.mpr ⟨(flow.flow_id, flow), hmem, rfl⟩
  · intro input2
    exact async_configure_ne_UnknownFlow env st flow.flow_id flow input2 hin
  · simp [FlowManager.async_abort, hin]

theorem C9_invalid_result_type_flow_survives_witness :
    FlowManager.handle_step envW stWeird flowWeird "init" Option.none =
      (.error (PyError.ValueError "Handler returned incorrect type: weird"), stWeird)
    ∧ (FlowManager.async_configure envW stWeird "f4" Option.none).1 ≠
        .error PyError.UnknownFlow := by
  have h := C9_invalid_result_type_flow_survives envW stWeird flowWeird "init"
    Option.none
    (fun _ => [("type", PyVal.str "weird"), ("flow_id", PyVal.str "f4")])
    (PyVal.str "weird") rfl rfl rfl rfl rfl rfl
  exact ⟨h.1, h.2.2.1 Option.none⟩

/-- C1 counterexample: with a domain handler whose schema rejects the
data, a dispatched step returning `create_entry` appends nothing — the
add-entry delegation fails with the validation error — even though the
flow has already been removed from the in-progress set and a
`create_entry` result was produced; this refutes the unconditional
"exactly one new ConfigEntry is appended". -/
theorem C1_counterexample :
    (FlowManager.handle_step envW stReject flowReject "init" Option.none).1 =
      .error (PyError.Invalid "extra keys not allowed")
    ∧ (FlowManager.handle_step envW stReject flowReject "init"
        Option.none).2.entries = []
    ∧ dictGet (FlowManager.handle_step envW stReject flowReject "init"
        Option.none).2.progress "f2" = Option.none
    ∧ (FlowManager.handle_step envW stReject flowReject "init"
        Option.none).2.sched_saves = 0 :=
  ⟨rfl, rfl, rfl, rfl⟩

/-- C1 (amended): a dispatched step returning `create_entry` always
removes the flow from the in-progress set before the add-entry delegation
runs (the final progress map lacks the flow id even though delegation may
still fail, as the counterexample shows); provided the domain's registered
handler schema accepts the result's `data`, exactly one new entry is
appended, built from the result's `title`/`data` together with the flow's
bound `domain`/`source` and the handler class's declared `VERSION`. -/
theorem C1_create_entry_appends (env : Env) (st : ConfigState) (flow : Flow)
    (step_id : String) (user_input : Option PyVal)
    (method : Option PyVal → PyDict) (result : PyDict)
    (title dat coerced : PyVal) (handler : Handler)
    (hin : dictGet st.progress flow.flow_id = some flow)
    (hstep : flow.handler.steps step_id = some method)
    (hres : method user_input = result)
    (htype : dictGet result "type" = some (PyVal.str RESULT_TYPE_CREATE_ENTRY))
    (htitle : dictGet result "title" = some title)
    (hdata : dictGet result "data" = some dat)
    (hhandler : st.handlers flow.domain = some handler)
    (hschema : handler.ENTRY_SCHEMA dat = .ok coerced) :
    ((FlowManager.handle_step env st flow step_id user_input).1 =
        .ok (dictErase result "data"))
    ∧ (∃ e, (FlowManager.handle_step env st flow step_id user_input).2.entries
          = st.entries ++ [e]
        ∧ e.version = flow.handler.VERSION
        ∧ e.domain = flow.domain
        ∧ e.title = title
        ∧ e.data = dat
        ∧ e.source = flow.source)
    ∧ (FlowManager.handle_step env st flow step_id user_input).2.progress
        = dictErase st.progress flow.flow_id := by
  have hok := async_add_entry_ok env
    { st with progress := dictErase st.progress flow.flow_id,
              fresh := st.fresh + 1 }
    { entry_id := freshId st.fresh, version := flow.handler.VERSION,
      domain := flow.domain, title := title, data := dat,
      source := flow.source, state := ENTRY_STATE_NOT_LOADED }
    handler coerced hhandler hschema
  simp only [FlowManager.handle_step, hstep, hres, htype]
  simp +decide only [PyVal.isStr]
  simp only [hin, htitle, hdata]
  rcases hadd : ConfigEntries.async_add_entry env
    { st with progress := dictErase st.progress flow.flow_id,
              fresh := st.fresh + 1 }
    { entry_id := freshId st.fresh, version := flow.handler.VERSION,
      domain := flow.domain, title := title, data := dat,
      source := flow.source, state := ENTRY_STATE_NOT_LOADED } with ⟨r, s3⟩
  rw [hadd] at hok
  obtain ⟨hr, ⟨e, he, hid, hver, hdom, htit, hdat2, hsrc⟩, hprog, _⟩ := hok
  cases r with
  | error e0 => exact absurd hr (by simp)
  | ok u => exact ⟨rfl, ⟨e, he, hver, hdom, htit, hdat2, hsrc⟩, hprog⟩

theorem C1_create_entry_appends_witness :
    ((FlowManager.handle_step envW stW flowW "init" Option.none).1 =
      .ok [("type", PyVal.str "create_entry"), ("flow_id", PyVal.str "f1"),
           ("title", PyVal.str "Kitchen")])
    ∧ (∃ e, (FlowManager.handle_step envW stW flowW "init" Option.none).2.entries
          = [] ++ [e]
        ∧ e.version = 1 ∧ e.domain = "demo" ∧ e.title = PyVal.str "Kitchen"
        ∧ e.data = dataW ∧ e.source = "user")
    ∧ (FlowManager.handle_step envW stW flowW "init" Option.none).2.progress
        = [] :=
  C1_create_entry_appends envW stW flowW "init" Option.none
    (fun _ => ConfigFlowHandler.async_create_entry "f1" "Kitchen" dataW)
    (ConfigFlowHandler.async_create_entry "f1" "Kitchen" dataW)
    (PyVal.str "Kitchen") dataW dataW handlerW
    rfl rfl rfl rfl rfl rfl rfl rfl

/-- C10: the step result dict handed back to the caller is the handler's
own result mutated by `_async_handle_step`: for a `form` result the
`step_id` key has been removed and moved (with the schema) into the flow's
`cur_step`, while `type`, `flow_id`, `title` (and `description`,
`data_schema`, `errors`) remain; for a `create_entry` result the `data`
key has been removed, while `type`, `flow_id` and `title` remain. -/
theorem C10_step_result_mutation (env : Env) (st : ConfigState) (flow : Flow)
    (step_id : String) (user_input : Option PyVal)
    (hin : dictGet st.progress flow.flow_id = some flow) :
    (∀ method fid title sid desc dsch errs,
      flow.handler.steps step_id = some method →
      method user_input =
        ConfigFlowHandler.async_show_form fid title sid desc dsch errs →
      FlowManager.handle_step env st flow step_id user_input =
        (.ok [("type", PyVal.str RESULT_TYPE_FORM),
              ("flow_id", PyVal.str fid),
              ("title", PyVal.str title),
              ("description", desc),
              ("data_schema", dsch),
              ("errors", errs)],
         { st with progress := (dictUpdate st.progress flow.flow_id
             { flow with cur_step := some (PyVal.str sid, dsch) }) }))
    ∧ (∀ method fid title dat handler coerced,
        flow.handler.steps step_id = some method →
        method user_input = ConfigFlowHandler.async_create_entry fid title dat →
        st.handlers flow.domain = some handler →
        handler.ENTRY_SCHEMA dat = .ok coerced →
        (FlowManager.handle_step env st flow step_id user_input).1 =
          .ok [("type", PyVal.str RESULT_TYPE_CREATE_ENTRY),
               ("flow_id", PyVal.str fid),
               ("title", PyVal.str title)]) := by
  constructor
  · intro method fid title sid desc dsch errs hstep hres
    simp only [FlowManager.handle_step, hstep, hres,
      ConfigFlowHandler.async_show_form]
    simp +decide only [PyVal.isStr, dictGet, dictErase, if_true, if_false]
  · intro method fid title dat handler coerced hstep hres hhandler hschema
    have hok := async_add_entry_ok env
      { st with progress := dictErase st.progress flow.flow_id,
                fresh := st.fresh + 1 }
      { entry_id := freshId st.fresh, version := flow.handler.VERSION,
        domain := flow.domain, title := PyVal.str title, data := dat,
        source := flow.source, state := ENTRY_STATE_NOT_LOADED }
      handler coerced hhandler hschema
    simp only [FlowManager.handle_step, hstep, hres,
      ConfigFlowHandler.async_create_entry]
    simp +decide only [PyVal.isStr, dictGet, dictErase, if_true, if_false]
    simp only [hin]
    rcases hadd : ConfigEntries.async_add_entry env
      { st with progress := dictErase st.progress flow.flow_id,
                fresh := st.fresh + 1 }
      { entry_id := freshId st.fresh, version := flow.handler.VERSION,
        domain := flow.domain, title := PyVal.str title, data := dat,
        source := flow.source, state := ENTRY_STATE_NOT_LOADED } with ⟨r, s3⟩
    rw [hadd] at hok
    obtain ⟨hr, _, _, _⟩ := hok
    cases r with
    | error e0 => exact absurd hr (by simp)
    | ok u => rfl

theorem C10_step_result_mutation_witness :
    FlowManager.handle_step envW stForm flowForm "init" Option.none =
      (.ok [("type", PyVal.str "form"), ("flow_id", PyVal.str "f5"),
            ("title", PyVal.str "Fill in"), ("description", PyVal.none),
            ("data_schema", PyVal.none), ("errors", PyVal.none)],
       { stForm with progress := [("f5",
           { flowForm with cur_step := some (PyVal.str "user", PyVal.none) })] })
    ∧ (FlowManager.handle_step envW stW flowW "init" Option.none).1 =
        .ok [("type", PyVal.str "create_entry"), ("flow_id", PyVal.str "f1"),
             ("title", PyVal.str "Kitchen")] := by
  refine ⟨?_, ?_⟩
  · exact (C10_step_result_mutation envW stForm flowForm "init" Option.none rfl).1
      (fun _ => ConfigFlowHandler.async_show_form "f5" "Fill in" "user"
        PyVal.none PyVal.none PyVal.none)
      "f5" "Fill in" "user" PyVal.none PyVal.none PyVal.none rfl rfl
  · exact (C10_step_result_mutation envW stW flowW "init" Option.none rfl).2
      (fun _ => ConfigFlowHandler.async_create_entry "f1" "Kitchen" dataW)
      "f1" "Kitchen" dataW handlerW dataW rfl rfl rfl rfl

end HA
